import Mathlib

/-!
Verification of the executor/memory abstraction layer of this repository.

The development shallowly embeds the backend-facing primitives of the
`gko` executor hierarchy: the cross-executor raw copy routines, raw
allocation, no-throw free, synchronization, device enumeration, the
event-based CUDA timer, the device save/restore discipline of accelerator
methods, and the operation double-dispatch protocol.

Backend (CUDA runtime) calls are modelled by passing their observable
outcome (a status code and any out-parameter values) as explicit inputs,
and their data effect (a byte transfer between address spaces) as a pure
function, so that every embedded routine is an executable Lean function.
-/

namespace Ginkgo

/-- A CUDA runtime status code (`cudaError_t`); `0` encodes `cudaSuccess`. -/
abbrev CudaStatus := Nat

/-- The success status code of the CUDA runtime. -/
def cudaSuccess : CudaStatus := 0

/-- The byte-addressed memory of one executor's address space:
a total map from addresses to byte values. -/
abbrev Mem := Nat → Nat

/-- The set of live allocations of one executor's space, as a
characteristic map over pointer values; `0` encodes `nullptr`. -/
abbrev Heap := Nat → Bool

/-- The typed error objects thrown by the layer.
`cudaError` embeds `CUDA_ERROR(errcode)`, the runtime-error kind carrying
the originating backend status code; `allocationError` embeds the
`AllocationError` raised through `ENSURE_ALLOCATED` (carrying the device
name and the requested byte count, but no status code); `notSupported`
embeds the `NOT_COMPILED` / not-supported-on-this-backend error. -/
inductive GkoError where
  | cudaError (code : CudaStatus)
  | allocationError (device : String) (bytes : Nat)
  | notSupported (what : String)
deriving DecidableEq, Repr

/-- The backend status code carried by an error object, if any. -/
def errStatus : GkoError → Option CudaStatus
  | .cudaError c => some c
  | _ => none

/-- Data effect of a successful `cudaMemcpy(dest_ptr, src_ptr, n, dir)`:
the `n` bytes starting at `srcPtr` in the source space overwrite the `n`
bytes starting at `dstPtr` in the destination space; every other
destination byte is untouched, and no byte outside `[srcPtr, srcPtr+n)`
of the source is read. -/
def memTransfer (dst src : Mem) (dstPtr srcPtr n : Nat) : Mem :=
  fun a => if dstPtr ≤ a ∧ a < dstPtr + n then src (srcPtr + (a - dstPtr)) else dst a

/-- The `n`-byte buffer starting at address `p` of memory `m`. -/
def readBytes (m : Mem) (p n : Nat) : List Nat :=
  (List.range n).map fun i => m (p + i)

/-- `CpuExecutor::raw_copy_to(const GpuExecutor*, num_bytes, src_ptr,
dest_ptr)`: a host-to-device `cudaMemcpy`; the status `st` it returns is
checked against `cudaSuccess` and a failure throws `CUDA_ERROR(st)`.
On success the device memory receives the transferred bytes. -/
def CpuExecutor.raw_copy_to_gpu (st : CudaStatus) (numBytes srcPtr destPtr : Nat)
    (hostMem devMem : Mem) : Except GkoError Mem :=
  if st ≠ cudaSuccess then .error (.cudaError st)
  else .ok (memTransfer devMem hostMem destPtr srcPtr numBytes)

/-- `GpuExecutor::raw_copy_to(const CpuExecutor*, ...)`: a device-to-host
`cudaMemcpy` with the same status check as the host-to-device case. -/
def GpuExecutor.raw_copy_to_cpu (st : CudaStatus) (numBytes srcPtr destPtr : Nat)
    (devMem hostMem : Mem) : Except GkoError Mem :=
  if st ≠ cudaSuccess then .error (.cudaError st)
  else .ok (memTransfer hostMem devMem destPtr srcPtr numBytes)

/-- `GpuExecutor::raw_copy_to(const GpuExecutor*, ...)`: a
device-to-device `cudaMemcpy` with the same status check. -/
def GpuExecutor.raw_copy_to_gpu (st : CudaStatus) (numBytes srcPtr destPtr : Nat)
    (srcDevMem dstDevMem : Mem) : Except GkoError Mem :=
  if st ≠ cudaSuccess then .error (.cudaError st)
  else .ok (memTransfer dstDevMem srcDevMem destPtr srcPtr numBytes)

/-- External semantics of `cudaFree(ptr)` on the allocation set: freeing
the null pointer is a documented no-op; otherwise the pointer is removed
from the live set. Its status code is not part of the model because the
caller in this repository discards it. -/
def cudaFreeEffect (p : Nat) (h : Heap) : Heap :=
  if p = 0 then h else fun q => if q = p then false else h q

/-- `GpuExecutor::free(ptr)`: declared `noexcept`, simply calls
`cudaFree(ptr)` and ignores its status, so it is total — it returns a
heap and has no error channel at all. -/
def GpuExecutor.free (p : Nat) (h : Heap) : Heap := cudaFreeEffect p h

/-- Observable outcome of the `cudaMalloc(&dev_ptr, num_bytes)` call:
the status code it returns (which the source discards) and the value
left in `dev_ptr` afterwards (`0` encodes `nullptr`). -/
structure MallocResult where
  status : CudaStatus
  ptr : Nat
deriving DecidableEq, Repr

/-- Modelled from the spec: `ENSURE_ALLOCATED(ptr, dev, size)` — its
definition (in `core/base/exception_helpers.hpp`) is not among the
source files; per §4.1 and §4.4 of the spec it checks the allocation
postcondition and throws `AllocationError` (carrying the device name and
byte count) exactly when the pointer is null. -/
def ENSURE_ALLOCATED (p : Nat) (dev : String) (n : Nat) : Except GkoError Unit :=
  if p = 0 then .error (.allocationError dev n) else .ok ()

/-- `GpuExecutor::raw_alloc(num_bytes)`: calls `cudaMalloc` without
inspecting its returned status, runs `ENSURE_ALLOCATED(dev_ptr, "gpu",
num_bytes)` on the resulting pointer, and returns the pointer. -/
def GpuExecutor.raw_alloc (r : MallocResult) (numBytes : Nat) : Except GkoError Nat :=
  match ENSURE_ALLOCATED r.ptr "gpu" numBytes with
  | .error e => .error e
  | .ok _ => .ok r.ptr

/-- `GpuExecutor::synchronize()`: captures the status of
`cudaDeviceSynchronize()` and throws `CUDA_ERROR(errcode)` when it is
not `cudaSuccess`. -/
def GpuExecutor.synchronize (st : CudaStatus) : Except GkoError Unit :=
  if st ≠ cudaSuccess then .error (.cudaError st) else .ok ()

/-- Observable outcome of the `cudaGetDeviceCount(&deviceCount)` call:
the status code it returns and the value left in `deviceCount`, which the
source initializes to `0` before the call (a failed query leaves it 0). -/
structure DeviceCountResult where
  status : CudaStatus
  count : Nat
deriving DecidableEq, Repr

/-- `GpuExecutor::getDeviceCount()`: queries the backend device count and
throws `CUDA_ERROR(errcode)` whenever the count is zero — both when the
query itself failed and when it succeeded with zero visible devices —
and otherwise returns the (positive) count. -/
def GpuExecutor.getDeviceCount (q : DeviceCountResult) : Except GkoError Nat :=
  if q.count = 0 then .error (.cudaError q.status) else .ok q.count

/-- The CUDA runtime calls the executor methods of this source issue,
including the device-management calls (`cudaSetDevice`/`cudaGetDevice`)
that a save/switch/restore discipline would have to use. -/
inductive GpuCall where
  | cudaMemcpyHostToDev
  | cudaMemcpyDevToHost
  | cudaMemcpyDevToDev
  | cudaMallocCall
  | cudaFreeCall
  | cudaDeviceSynchronizeCall
  | cudaGetDeviceCountCall
  | cudaSetDeviceCall (d : Nat)
  | cudaGetDeviceCall
deriving DecidableEq, Repr

/-- Whether a call reads or writes the driver's globally-current
device. -/
def GpuCall.isDeviceMgmt : GpuCall → Bool
  | .cudaSetDeviceCall _ => true
  | .cudaGetDeviceCall => true
  | _ => false

/-- The globally-current device after replaying a call sequence starting
from device `d`: only `cudaSetDevice` changes it. -/
def replayCurrent (d : Nat) : List GpuCall → Nat
  | [] => d
  | .cudaSetDeviceCall x :: rest => replayCurrent x rest
  | _ :: rest => replayCurrent d rest

/-- The device that is current when each backend work call (every call
other than the device-management ones) of a sequence executes. -/
def workDevices (d : Nat) : List GpuCall → List Nat
  | [] => []
  | .cudaSetDeviceCall x :: rest => workDevices x rest
  | .cudaGetDeviceCall :: rest => workDevices d rest
  | _ :: rest => d :: workDevices d rest

/-- The CUDA runtime calls `CpuExecutor::raw_copy_to(const GpuExecutor*,
...)` issues, read off its body: exactly one host-to-device `cudaMemcpy`
and no device get/set. -/
def CpuExecutor.raw_copy_to_gpu_calls : List GpuCall := [.cudaMemcpyHostToDev]

/-- The calls `GpuExecutor::raw_copy_to(const CpuExecutor*, ...)`
issues: one device-to-host `cudaMemcpy`, no device get/set. -/
def GpuExecutor.raw_copy_to_cpu_calls : List GpuCall := [.cudaMemcpyDevToHost]

/-- The calls `GpuExecutor::raw_copy_to(const GpuExecutor*, ...)`
issues: one device-to-device `cudaMemcpy`, no device get/set. -/
def GpuExecutor.raw_copy_to_gpu_calls : List GpuCall := [.cudaMemcpyDevToDev]

/-- The calls `GpuExecutor::raw_alloc` issues: one `cudaMalloc`, no
device get/set. -/
def GpuExecutor.raw_alloc_calls : List GpuCall := [.cudaMallocCall]

/-- The calls `GpuExecutor::free` issues: one `cudaFree`, no device
get/set. -/
def GpuExecutor.free_calls : List GpuCall := [.cudaFreeCall]

/-- The calls `GpuExecutor::synchronize` issues: one
`cudaDeviceSynchronize`, no device get/set. -/
def GpuExecutor.synchronize_calls : List GpuCall := [.cudaDeviceSynchronizeCall]

/-- The calls `GpuExecutor::getDeviceCount` issues: one
`cudaGetDeviceCount`, no device get/set. -/
def GpuExecutor.getDeviceCount_calls : List GpuCall := [.cudaGetDeviceCountCall]

/-- The call sequences of all public methods of the executors of this
source, one list per method body. -/
def gpuMethodCalls : List (List GpuCall) :=
  [CpuExecutor.raw_copy_to_gpu_calls, GpuExecutor.raw_copy_to_cpu_calls,
   GpuExecutor.raw_copy_to_gpu_calls, GpuExecutor.raw_alloc_calls,
   GpuExecutor.free_calls, GpuExecutor.synchronize_calls,
   GpuExecutor.getDeviceCount_calls]

/-- The closed set of backend kinds an `Operation` exposes one entry
point for. -/
inductive BackendKind where
  | omp
  | reference
  | cuda
  | dpcpp
  | hip
deriving DecidableEq, Repr

/-- Modelled from the spec: an `Operation` (§4.2) — the base class with
its per-backend virtual `run` entry points is not among the source
files. An operation either overrides the entry point of a backend kind
with a body producing an observable effect on an environment `E`, or
leaves it at the default, which fails with the `NOT_COMPILED` /
not-supported error (as in `core/device_hooks/common_kernels.inc.cpp`). -/
structure Operation (E : Type) where
  override : BackendKind → Option (E → E)

/-- `Executor::run(op)`: double dispatch resolves to the entry point of
this executor's backend kind; a missing override fails with the
not-supported error, never falling back to another backend's body. -/
def Executor.run {E : Type} (kind : BackendKind) (op : Operation E) (env : E) :
    Except GkoError E :=
  match op.override kind with
  | some eff => .ok (eff env)
  | none => .error (.notSupported "backend")

/-- The `ExampleOperation` of the executor test: each backend override
writes a backend-specific sentinel into the captured variable, and the
hip override writes the current hip device ordinal `hipDevice`. -/
def ExampleOperation (hipDevice : Int) : Operation Int where
  override
    | .omp => some fun _ => -1
    | .reference => some fun _ => -2
    | .cuda => some fun _ => -3
    | .dpcpp => some fun _ => -4
    | .hip => some fun _ => hipDevice

/-- A CUDA event time point (`time_point` with `type_ == cuda`),
identified by its event handle. -/
structure TimePoint where
  event : Nat
deriving DecidableEq, Repr

/-- The backend calls the CUDA timer issues, in issue order. -/
inductive CudaCall where
  | eventRecord (event stream : Nat)
  | eventSynchronize (event : Nat)
  | eventElapsedTime (startEvent stopEvent : Nat)
deriving DecidableEq, Repr

/-- Whether a backend call blocks the calling thread until device-side
completion: of the three calls the timer issues, only
`cudaEventSynchronize` does. -/
def CudaCall.blocks : CudaCall → Bool
  | .eventSynchronize _ => true
  | _ => false

/-- `static_cast<int64>` applied to a real value: C++ float-to-integer
conversion truncates toward zero. -/
def castInt64 (q : ℚ) : Int := Int.tdiv q.num q.den

/-- Observable outcome of the backend calls `CudaTimer::difference`
makes: the statuses of `cudaEventSynchronize` and
`cudaEventElapsedTime`, and the elapsed milliseconds the latter
reports. -/
structure TimerBackend where
  syncStatus : CudaStatus
  elapsedStatus : CudaStatus
  elapsedMs : ℚ
deriving DecidableEq, Repr

/-- `CudaTimer::record(time)`: issues a single
`cudaEventRecord(time.data_.cuda_event, exec_->get_stream())` on the
owning executor's stream and checks its status (the
`GKO_ASSERT_NO_CUDA_ERRORS` wrapper is modelled from the spec §4.4 as
raising the status-carrying runtime error on failure). The function
returns the list of backend calls it issued together with its result. -/
def CudaTimer.record (recStatus : CudaStatus) (stream : Nat) (t : TimePoint) :
    List CudaCall × Except GkoError Unit :=
  ([.eventRecord t.event stream],
   if recStatus ≠ cudaSuccess then .error (.cudaError recStatus) else .ok ())

/-- `CudaTimer::difference(start, stop)`: first issues
`cudaEventSynchronize(stop.data_.cuda_event)` (blocking until the stop
marker has fired), then `cudaEventElapsedTime(&ms, start, stop)`, and
returns `static_cast<int64>(ms * 1e6)` — the elapsed time converted from
milliseconds to nanoseconds. Each status is checked as in `record`. -/
def CudaTimer.difference (bk : TimerBackend) (start stop : TimePoint) :
    List CudaCall × Except GkoError Int :=
  if bk.syncStatus ≠ cudaSuccess then
    ([.eventSynchronize stop.event], .error (.cudaError bk.syncStatus))
  else if bk.elapsedStatus ≠ cudaSuccess then
    ([.eventSynchronize stop.event, .eventElapsedTime start.event stop.event],
     .error (.cudaError bk.elapsedStatus))
  else
    ([.eventSynchronize stop.event, .eventElapsedTime start.event stop.event],
     .ok (castInt64 (bk.elapsedMs * 1000000)))

/-- The host array `{3, 8}` of the copy scenario, laid out at address 0. -/
def host38 : Mem := fun a => if a = 0 then 3 else if a = 1 then 8 else 0

/-- An all-zero memory, used as the fresh target buffers of the
scenarios. -/
def zeroMem : Mem := fun _ => 0

/-- An operation overriding the entry point of no backend at all. -/
def noOverrideOp : Operation Int := ⟨fun _ => none⟩

/-- Transferring zero bytes leaves the destination memory untouched,
whatever the pointers and the source memory are. -/
theorem memTransfer_zero (dst src : Mem) (dp sp : Nat) :
    memTransfer dst src dp sp 0 = dst := by
  funext a
  unfold memTransfer
  rw [if_neg (by omega)]

/-- Reading back a transferred region yields exactly the source buffer. -/
theorem readBytes_memTransfer (dst src : Mem) (dp sp n : Nat) :
    readBytes (memTransfer dst src dp sp n) dp n = readBytes src sp n := by
  unfold readBytes
  apply List.map_congr_left
  intro i hi
  rw [List.mem_range] at hi
  unfold memTransfer
  rw [if_pos (by omega)]
  congr 1
  omega

/-- Claim C1: for every byte buffer and every supported ordered backend
pair, pulling the buffer across with `copy_from` (which resolves to the
matching `raw_copy_to` routine) and then pulling it back with the
reverse `copy_from` yields the original buffer: the host→device→host,
device→host→device and device→device→device round-trips are identities
on successfully reported transfers; in particular copying the host array
{3, 8} into a device buffer and back returns {3, 8}. -/
theorem c1_copy_roundtrip :
    (∀ (n sp dp q : Nat) (host dev host2 : Mem), ∃ dev1 host1,
        CpuExecutor.raw_copy_to_gpu cudaSuccess n sp dp host dev = .ok dev1 ∧
        GpuExecutor.raw_copy_to_cpu cudaSuccess n dp q dev1 host2 = .ok host1 ∧
        readBytes host1 q n = readBytes host sp n) ∧
    (∀ (n sp dp q : Nat) (dev host dev2 : Mem), ∃ host1 dev1,
        GpuExecutor.raw_copy_to_cpu cudaSuccess n sp dp dev host = .ok host1 ∧
        CpuExecutor.raw_copy_to_gpu cudaSuccess n dp q host1 dev2 = .ok dev1 ∧
        readBytes dev1 q n = readBytes dev sp n) ∧
    (∀ (n sp dp q : Nat) (devA devB devA2 : Mem), ∃ d1 d2,
        GpuExecutor.raw_copy_to_gpu cudaSuccess n sp dp devA devB = .ok d1 ∧
        GpuExecutor.raw_copy_to_gpu cudaSuccess n dp q d1 devA2 = .ok d2 ∧
        readBytes d2 q n = readBytes devA sp n) ∧
    (∃ dev1 host1,
        CpuExecutor.raw_copy_to_gpu cudaSuccess 2 0 0 host38 zeroMem = .ok dev1 ∧
        GpuExecutor.raw_copy_to_cpu cudaSuccess 2 0 0 dev1 zeroMem = .ok host1 ∧
        readBytes host1 0 2 = [3, 8]) := by
  refine ⟨?_, ?_, ?_, ?_⟩
  · intro n sp dp q host dev host2
    exact ⟨_, _, rfl, rfl, by rw [readBytes_memTransfer, readBytes_memTransfer]⟩
  · intro n sp dp q dev host dev2
    exact ⟨_, _, rfl, rfl, by rw [readBytes_memTransfer, readBytes_memTransfer]⟩
  · intro n sp dp q devA devB devA2
    exact ⟨_, _, rfl, rfl, by rw [readBytes_memTransfer, readBytes_memTransfer]⟩
  · exact ⟨_, _, rfl, rfl, by decide⟩

/-- Claim C9: every copy routine treats `num_bytes == 0` as a valid,
successful no-op — the destination memory is returned unchanged for
arbitrary (even null) pointer values and no source byte is read — and
every backend-reported transfer failure raises the status-carrying
runtime error `CUDA_ERROR(errcode)`. -/
theorem c9_copy_zero_and_failure :
    (∀ (sp dp : Nat) (host dev : Mem),
        CpuExecutor.raw_copy_to_gpu cudaSuccess 0 sp dp host dev = .ok dev) ∧
    (∀ (sp dp : Nat) (dev host : Mem),
        GpuExecutor.raw_copy_to_cpu cudaSuccess 0 sp dp dev host = .ok host) ∧
    (∀ (sp dp : Nat) (devA devB : Mem),
        GpuExecutor.raw_copy_to_gpu cudaSuccess 0 sp dp devA devB = .ok devB) ∧
    (∀ (st n sp dp : Nat) (host dev : Mem), st ≠ cudaSuccess →
        CpuExecutor.raw_copy_to_gpu st n sp dp host dev = .error (.cudaError st)) ∧
    (∀ (st n sp dp : Nat) (dev host : Mem), st ≠ cudaSuccess →
        GpuExecutor.raw_copy_to_cpu st n sp dp dev host = .error (.cudaError st)) ∧
    (∀ (st n sp dp : Nat) (devA devB : Mem), st ≠ cudaSuccess →
        GpuExecutor.raw_copy_to_gpu st n sp dp devA devB = .error (.cudaError st)) := by
  refine ⟨?_, ?_, ?_, ?_, ?_, ?_⟩
  · intro sp dp host dev
    show Except.ok (memTransfer dev host dp sp 0) = Except.ok dev
    rw [memTransfer_zero]
  · intro sp dp dev host
    show Except.ok (memTransfer host dev dp sp 0) = Except.ok host
    rw [memTransfer_zero]
  · intro sp dp devA devB
    show Except.ok (memTransfer devB devA dp sp 0) = Except.ok devB
    rw [memTransfer_zero]
  · intro st n sp dp host dev h
    unfold CpuExecutor.raw_copy_to_gpu
    rw [if_pos h]
  · intro st n sp dp dev host h
    unfold GpuExecutor.raw_copy_to_cpu
    rw [if_pos h]
  · intro st n sp dp devA devB h
    unfold GpuExecutor.raw_copy_to_gpu
    rw [if_pos h]

/-- Witness for C9: a zero-byte copy between concrete memories with null
pointers succeeds unchanged, and a failing transfer status (code 1)
raises the runtime error carrying that status. -/
theorem c9_copy_zero_and_failure_witness :
    GpuExecutor.raw_copy_to_cpu cudaSuccess 0 0 0 zeroMem host38 = .ok host38 ∧
    CpuExecutor.raw_copy_to_gpu 1 3 0 0 zeroMem zeroMem = .error (.cudaError 1) :=
  ⟨c9_copy_zero_and_failure.2.1 0 0 zeroMem host38,
   c9_copy_zero_and_failure.2.2.2.1 1 3 0 0 zeroMem zeroMem (by decide)⟩

/-- Claim C10: `free` is declared no-throw — in this embedding it is a
total function into `Heap` with no error channel at all — and calling it
on the null pointer (as left behind by a failed allocation) is a no-op
that leaves the executor's allocation state unchanged. -/
theorem c10_free_null (h : Heap) : GpuExecutor.free 0 h = h := rfl

/-- Claim C2: the device-count query of an accelerator executor fails
whenever zero devices are visible (the thrown device-query failure is
`CUDA_ERROR(errcode)`, the runtime error carrying the query's status),
it never returns 0 as a successful result, and when the query call
itself reports an error — leaving the count at its initial 0 — the
raised error is the runtime-error kind carrying that failing status. -/
theorem c2_get_num_devices (q : DeviceCountResult) :
    (q.count = 0 → GpuExecutor.getDeviceCount q = .error (.cudaError q.status)) ∧
    (∀ n, GpuExecutor.getDeviceCount q = .ok n → 0 < n) ∧
    (q.status ≠ cudaSuccess → q.count = 0 →
      ∃ e, GpuExecutor.getDeviceCount q = .error e ∧ errStatus e = some q.status) := by
  refine ⟨?_, ?_, ?_⟩
  · intro h
    unfold GpuExecutor.getDeviceCount
    rw [if_pos h]
  · intro n h
    unfold GpuExecutor.getDeviceCount at h
    by_cases hc : q.count = 0
    · rw [if_pos hc] at h
      exact absurd h (by simp)
    · rw [if_neg hc] at h
      cases h
      omega
  · intro _ h
    refine ⟨.cudaError q.status, ?_, rfl⟩
    unfold GpuExecutor.getDeviceCount
    rw [if_pos h]

/-- Witness for C2: a backend reporting status 38 (no CUDA-capable
device) with the count left at zero makes `getDeviceCount` fail with the
error carrying that status rather than returning 0. -/
theorem c2_get_num_devices_witness :
    GpuExecutor.getDeviceCount ⟨38, 0⟩ = .error (.cudaError 38) :=
  (c2_get_num_devices ⟨38, 0⟩).1 rfl

/-- Claim C3: when the backend allocation call fails — which, per the
CUDA allocation contract assumed by this code, leaves the result pointer
null — `raw_alloc` raises `AllocationError` (carrying the device name
and the requested byte count), and `raw_alloc` never returns the null
pointer as a successful result. -/
theorem c3_alloc_failure (r : MallocResult) (n : Nat)
    (hnull : r.status ≠ cudaSuccess → r.ptr = 0) :
    (r.status ≠ cudaSuccess →
        GpuExecutor.raw_alloc r n = .error (.allocationError "gpu" n)) ∧
    (∀ p, GpuExecutor.raw_alloc r n = .ok p → p ≠ 0) := by
  constructor
  · intro hfail
    unfold GpuExecutor.raw_alloc ENSURE_ALLOCATED
    rw [if_pos (hnull hfail)]
  · intro p hok
    unfold GpuExecutor.raw_alloc ENSURE_ALLOCATED at hok
    by_cases hp : r.ptr = 0
    · rw [if_pos hp] at hok
      exact absurd hok (by simp)
    · rw [if_neg hp] at hok
      cases hok
      exact hp

/-- Witness for C3: requesting an absurd 2^52 bytes with the backend
reporting an out-of-memory status (2) and a null result pointer fails
with `AllocationError` instead of crashing or returning null. -/
theorem c3_alloc_failure_witness :
    GpuExecutor.raw_alloc ⟨2, 0⟩ (2 ^ 52) = .error (.allocationError "gpu" (2 ^ 52)) :=
  (c3_alloc_failure ⟨2, 0⟩ (2 ^ 52) (fun _ => rfl)).1 (by decide)

/-- Counterexample to claim C4 as stated: a zero-byte request for which
the backend reports success but leaves the result pointer null — CUDA's
documented `cudaMalloc(&p, 0)` outcome — makes `alloc(0)` raise
`AllocationError` instead of succeeding, because `ENSURE_ALLOCATED`
checks only the pointer and has no zero-size carve-out. -/
theorem c4_alloc_zero_cex :
    GpuExecutor.raw_alloc ⟨cudaSuccess, 0⟩ 0 = .error (.allocationError "gpu" 0) := rfl

/-- Claim C4 as amended: `alloc(0)` succeeds exactly when the backend
hands back a non-null pointer for the zero-byte request, and raises
`AllocationError` when the pointer is null (CUDA's zero-size behavior);
`free` never fails — it is total, without an error channel — both on the
pointer returned by a successful `alloc(0)` and on the null pointer. -/
theorem c4_alloc_zero_amended :
    (∀ r : MallocResult, r.ptr ≠ 0 → GpuExecutor.raw_alloc r 0 = .ok r.ptr) ∧
    (∀ r : MallocResult, r.ptr = 0 →
        GpuExecutor.raw_alloc r 0 = .error (.allocationError "gpu" 0)) ∧
    (∀ (p : Nat) (h : Heap), GpuExecutor.free p h = cudaFreeEffect p h) ∧
    (∀ h : Heap, GpuExecutor.free 0 h = h) := by
  refine ⟨?_, ?_, fun _ _ => rfl, fun _ => rfl⟩
  · intro r hp
    unfold GpuExecutor.raw_alloc ENSURE_ALLOCATED
    rw [if_neg hp]
  · intro r hp
    unfold GpuExecutor.raw_alloc ENSURE_ALLOCATED
    rw [if_pos hp]

/-- Witness for the amended C4: with the backend handing back a non-null
pointer (7) for the zero-byte request the allocation succeeds, with a
null pointer it raises `AllocationError`, and `free` of the null pointer
leaves a concrete heap unchanged. -/
theorem c4_alloc_zero_amended_witness :
    GpuExecutor.raw_alloc ⟨cudaSuccess, 7⟩ 0 = .ok 7 ∧
    GpuExecutor.raw_alloc ⟨cudaSuccess, 0⟩ 0 = .error (.allocationError "gpu" 0) ∧
    GpuExecutor.free 0 (fun _ => false) = (fun _ => false) :=
  ⟨c4_alloc_zero_amended.1 ⟨cudaSuccess, 7⟩ (by decide),
   c4_alloc_zero_amended.2.1 ⟨cudaSuccess, 0⟩ rfl,
   c4_alloc_zero_amended.2.2.2 (fun _ => false)⟩

/-- Counterexample to claim C5 as stated: `raw_alloc` discards the
status returned by `cudaMalloc`. With a failing status (2) whose call
left a non-null junk value (5) in the uninitialized `dev_ptr`, the
failing status escapes untranslated and the call continues as if it
succeeded; and even when failure is detected through the null pointer,
the raised `AllocationError` carries no backend status code. -/
theorem c5_status_capture_cex :
    GpuExecutor.raw_alloc ⟨2, 5⟩ 64 = .ok 5 ∧
    GpuExecutor.raw_alloc ⟨2, 0⟩ 64 = .error (.allocationError "gpu" 64) ∧
    errStatus (.allocationError "gpu" 64) = none ∧
    (2 : CudaStatus) ≠ cudaSuccess :=
  ⟨rfl, rfl, rfl, by decide⟩

/-- Claim C5 as amended: every fallible backend call site except
allocation — the copy, synchronize, device-count and event-operation
(timer record and difference) sites — captures the backend status
immediately after the call and raises the status-carrying `CUDA_ERROR`
on failure, whereas the allocation call site ignores the `cudaMalloc`
status entirely: it raises a status-less `AllocationError` exactly when
the resulting pointer is null, and otherwise returns the pointer
whatever the status was. -/
theorem c5_status_capture_amended :
    (∀ (st n sp dp : Nat) (host dev : Mem), st ≠ cudaSuccess →
        ∃ e, CpuExecutor.raw_copy_to_gpu st n sp dp host dev = .error e ∧
          errStatus e = some st) ∧
    (∀ (st n sp dp : Nat) (dev host : Mem), st ≠ cudaSuccess →
        ∃ e, GpuExecutor.raw_copy_to_cpu st n sp dp dev host = .error e ∧
          errStatus e = some st) ∧
    (∀ (st n sp dp : Nat) (devA devB : Mem), st ≠ cudaSuccess →
        ∃ e, GpuExecutor.raw_copy_to_gpu st n sp dp devA devB = .error e ∧
          errStatus e = some st) ∧
    (∀ st : CudaStatus, st ≠ cudaSuccess →
        ∃ e, GpuExecutor.synchronize st = .error e ∧ errStatus e = some st) ∧
    (∀ q : DeviceCountResult, q.count = 0 →
        ∃ e, GpuExecutor.getDeviceCount q = .error e ∧ errStatus e = some q.status) ∧
    (∀ (st stream : Nat) (t : TimePoint), st ≠ cudaSuccess →
        ∃ e, (CudaTimer.record st stream t).2 = .error e ∧ errStatus e = some st) ∧
    (∀ (bk : TimerBackend) (start stop : TimePoint), bk.syncStatus ≠ cudaSuccess →
        ∃ e, (CudaTimer.difference bk start stop).2 = .error e ∧
          errStatus e = some bk.syncStatus) ∧
    (∀ (bk : TimerBackend) (start stop : TimePoint), bk.syncStatus = cudaSuccess →
        bk.elapsedStatus ≠ cudaSuccess →
        ∃ e, (CudaTimer.difference bk start stop).2 = .error e ∧
          errStatus e = some bk.elapsedStatus) ∧
    (∀ (r : MallocResult) (n : Nat),
        GpuExecutor.raw_alloc r n =
          if r.ptr = 0 then .error (.allocationError "gpu" n) else .ok r.ptr) := by
  refine ⟨?_, ?_, ?_, ?_, ?_, ?_, ?_, ?_, ?_⟩
  · intro st n sp dp host dev h
    refine ⟨.cudaError st, ?_, rfl⟩
    unfold CpuExecutor.raw_copy_to_gpu
    rw [if_pos h]
  · intro st n sp dp dev host h
    refine ⟨.cudaError st, ?_, rfl⟩
    unfold GpuExecutor.raw_copy_to_cpu
    rw [if_pos h]
  · intro st n sp dp devA devB h
    refine ⟨.cudaError st, ?_, rfl⟩
    unfold GpuExecutor.raw_copy_to_gpu
    rw [if_pos h]
  · intro st h
    refine ⟨.cudaError st, ?_, rfl⟩
    unfold GpuExecutor.synchronize
    rw [if_pos h]
  · intro q h
    refine ⟨.cudaError q.status, ?_, rfl⟩
    unfold GpuExecutor.getDeviceCount
    rw [if_pos h]
  · intro st stream t h
    refine ⟨.cudaError st, ?_, rfl⟩
    show (if st ≠ cudaSuccess then Except.error (GkoError.cudaError st)
      else Except.ok ()) = Except.error (GkoError.cudaError st)
    rw [if_pos h]
  · intro bk start stop h
    refine ⟨.cudaError bk.syncStatus, ?_, rfl⟩
    unfold CudaTimer.difference
    rw [if_pos h]
  · intro bk start stop hsync helapsed
    refine ⟨.cudaError bk.elapsedStatus, ?_, rfl⟩
    unfold CudaTimer.difference
    rw [if_neg (by simp [hsync]), if_pos helapsed]
  · intro r n
    unfold GpuExecutor.raw_alloc ENSURE_ALLOCATED
    by_cases hp : r.ptr = 0
    · rw [if_pos hp, if_pos hp]
    · rw [if_neg hp, if_neg hp]

/-- Witness for the amended C5: a failed synchronize carries its status
(77), a failed device-to-host copy carries its status (4), a failed
event record carries its status (9), a failed event synchronize inside
difference carries its status (6), and a non-null allocation result is
returned regardless of the status. -/
theorem c5_status_capture_amended_witness :
    (∃ e, GpuExecutor.synchronize 77 = .error e ∧ errStatus e = some 77) ∧
    (∃ e, GpuExecutor.raw_copy_to_cpu 4 8 0 0 zeroMem zeroMem = .error e ∧
      errStatus e = some 4) ∧
    (∃ e, (CudaTimer.record 9 0 ⟨1⟩).2 = .error e ∧ errStatus e = some 9) ∧
    (∃ e, (CudaTimer.difference ⟨6, cudaSuccess, 2⟩ ⟨1⟩ ⟨2⟩).2 = .error e ∧
      errStatus e = some 6) ∧
    GpuExecutor.raw_alloc ⟨2, 5⟩ 64 = (if (5 : Nat) = 0 then
      .error (.allocationError "gpu" 64) else .ok 5) :=
  ⟨c5_status_capture_amended.2.2.2.1 77 (by decide),
   c5_status_capture_amended.2.1 4 8 0 0 zeroMem zeroMem (by decide),
   c5_status_capture_amended.2.2.2.2.2.1 9 0 ⟨1⟩ (by decide),
   c5_status_capture_amended.2.2.2.2.2.2.1 ⟨6, cudaSuccess, 2⟩ ⟨1⟩ ⟨2⟩ (by decide),
   c5_status_capture_amended.2.2.2.2.2.2.2.2 ⟨2, 5⟩ 64⟩

/-- Claim C6, evaluated against the code at the failing input (prior
globally-current device 1, executor bound to ordinal 0): every public
executor method of this source issues no device-management call at all —
no save, no switch, no restore. The globally-current device is therefore
left at the prior value 1 throughout, but the backend work of every
method executes on device 1, not on the bound ordinal 0 as the claim
(and the repository's own `HipExecutor_RunsOnProperDevice` and
`HipExecutor_PreservesDeviceSettings` tests) require. -/
theorem c6_no_device_guard :
    (∀ t ∈ gpuMethodCalls,
        t.all (fun c => ! c.isDeviceMgmt) = true ∧
        replayCurrent 1 t = 1 ∧
        workDevices 1 t = [1]) ∧
    workDevices 1 GpuExecutor.synchronize_calls ≠ [0] := by decide

/-- Claim C7: running an `Operation` on an executor of a backend kind
for which it has no override fails with the not-supported ("not compiled
for this backend") error and never falls back to another backend's body,
while running it on a backend kind with an override produces exactly that
override's observable effect; in particular the test's
`ExampleOperation` run on a hip executor stores the hip device ordinal,
and run on an omp executor stores the sentinel -1. -/
theorem c7_operation_dispatch :
    (∀ (E : Type) (k : BackendKind) (op : Operation E) (env : E),
        op.override k = none →
        Executor.run k op env = .error (.notSupported "backend")) ∧
    (∀ (E : Type) (k : BackendKind) (op : Operation E) (env : E) (eff : E → E),
        op.override k = some eff → Executor.run k op env = .ok (eff env)) ∧
    (∀ (d v : Int), Executor.run .hip (ExampleOperation d) v = .ok d) ∧
    (∀ (d v : Int), Executor.run .omp (ExampleOperation d) v = .ok (-1)) := by
  refine ⟨?_, ?_, fun _ _ => rfl, fun _ _ => rfl⟩
  · intro E k op env h
    unfold Executor.run
    rw [h]
  · intro E k op env eff h
    unfold Executor.run
    rw [h]

/-- Witness for C7: an operation with no override run on a cuda executor
fails with the not-supported error, and the `ExampleOperation`, which
overrides the reference entry point, stores its reference sentinel -2. -/
theorem c7_operation_dispatch_witness :
    Executor.run .cuda noOverrideOp 0 = .error (.notSupported "backend") ∧
    Executor.run .reference (ExampleOperation 3) 0 = .ok (-2) :=
  ⟨c7_operation_dispatch.1 Int .cuda noOverrideOp 0 rfl,
   c7_operation_dispatch.2.1 Int .reference (ExampleOperation 3) 0 (fun _ => -2) rfl⟩

/-- Claim C8: `record` issues exactly one `cudaEventRecord` of the time
point's event on the owning executor's stream — a non-blocking call — and
returns; `difference(start, stop)` first issues the blocking
`cudaEventSynchronize` on the `stop` event and only then queries the
elapsed time, returning `static_cast<int64>(ms * 1e6)`, the elapsed
milliseconds converted to the fixed sub-microsecond unit of nanoseconds
(e.g. an elapsed 2 ms yields 2000000 ns). -/
theorem c8_timer (stream : Nat) (t : TimePoint) (bk : TimerBackend)
    (start stop : TimePoint) (hsync : bk.syncStatus = cudaSuccess)
    (helapsed : bk.elapsedStatus = cudaSuccess) :
    (CudaTimer.record cudaSuccess stream t).1 = [.eventRecord t.event stream] ∧
    (∀ c ∈ (CudaTimer.record cudaSuccess stream t).1, c.blocks = false) ∧
    (CudaTimer.record cudaSuccess stream t).2 = .ok () ∧
    (CudaTimer.difference bk start stop).1 =
      [.eventSynchronize stop.event, .eventElapsedTime start.event stop.event] ∧
    CudaCall.blocks (.eventSynchronize stop.event) = true ∧
    (CudaTimer.difference bk start stop).2 =
      .ok (castInt64 (bk.elapsedMs * 1000000)) ∧
    castInt64 ((2 : ℚ) * 1000000) = 2000000 := by
  have hd : CudaTimer.difference bk start stop =
      ([.eventSynchronize stop.event, .eventElapsedTime start.event stop.event],
       .ok (castInt64 (bk.elapsedMs * 1000000))) := by
    unfold CudaTimer.difference
    rw [if_neg (by simp [hsync]), if_neg (by simp [helapsed])]
  refine ⟨rfl, ?_, rfl, ?_, rfl, ?_, ?_⟩
  · intro c hc
    simp only [CudaTimer.record, List.mem_singleton] at hc
    rw [hc]
    rfl
  · rw [hd]
  · rw [hd]
  · have h2 : (2 : ℚ) * 1000000 = (2000000 : ℚ) := by norm_num
    rw [h2]
    unfold castInt64
    rw [Rat.num_ofNat, Rat.den_ofNat]
    simp [Int.tdiv_one]

/-- Witness for C8: a concrete timer run — stream 0, events 1 and 2, a
backend reporting success and an elapsed 2 ms — records without a
blocking call and measures 2000000 ns after synchronizing on the stop
event. -/
theorem c8_timer_witness :
    (CudaTimer.record cudaSuccess 0 ⟨1⟩).1 = [.eventRecord 1 0] ∧
    (CudaTimer.difference ⟨cudaSuccess, cudaSuccess, 2⟩ ⟨1⟩ ⟨2⟩).2 = .ok 2000000 := by
  have h := c8_timer 0 ⟨1⟩ ⟨cudaSuccess, cudaSuccess, 2⟩ ⟨1⟩ ⟨2⟩ rfl rfl
  refine ⟨h.1, ?_⟩
  rw [h.2.2.2.2.2.1]
  rw [show castInt64 ((2 : ℚ) * 1000000) = 2000000 from h.2.2.2.2.2.2]

end Ginkgo
